import Mathlib

/-!
Verification of the AFS snapshot runbooks (`backupsnappy.py`, `deletionsnappy.py`).

The two scripts are orchestrations over an external cloud API
(`afs_snappy`: StorageManager, AFSManager, alerting, identity).  We embed
them shallowly: every external call's outcome is supplied by an
environment record (a call either returns a value or raises), and the
scripts' own control flow — validation order, per-volume loops, the
expiration predicate, the eligibility filter, alert emission, counters,
exit codes — is transcribed directly from the Python source.

Datetimes are modelled as integers (seconds since an epoch); a Python
`timedelta`'s `.days` field is floor division of the difference by 86400,
which `Int.fdiv` computes.
-/

namespace Runbooks

/-- Alert type sent to the TIC alerting backend (`AlertType` in the source). -/
inductive AlertType where
  | SUCCESS
  | FAIL
deriving DecidableEq, BEq, Repr

/-- One alert dispatched via `alerting.send`: its type and the optional
`db_name` (volume name) it is scoped to. -/
structure Alert where
  type : AlertType
  db_name : Option String
deriving DecidableEq, Repr

/-- Number of alerts of a given type in an emission trace. -/
def countAlerts (t : AlertType) (l : List Alert) : Nat :=
  (l.filter (fun a => a.type == t)).length

/-- Snapshot record as the deletion runbook sees it: a name, a creation
timestamp (seconds), and `retention_days` which may be absent (`None` in
Python). -/
structure Snapshot where
  name : String
  created_at : Int
  retention_days : Option Int
deriving DecidableEq, Repr

/-- Python `timedelta.days` for a difference of `d` seconds: floor division
by 86400 (Python's `timedelta` normalises with `0 <= seconds < 86400`, so
`.days` is the floor also for negative differences). -/
def timedelta_days (d : Int) : Int :=
  d.fdiv 86400

/-- Embedding of `__has_snapshot_expired` (deletionsnappy.py:37-49):
`created_since = int((current_date_time - snapshot.created_at).days)`,
result `created_since > snapshot.retention_days`.  A `None`
`retention_days` would make the Python comparison raise, hence `Option`. -/
def has_snapshot_expired (current_date_time : Int) (snapshot : Snapshot) : Option Bool :=
  match snapshot.retention_days with
  | none => none
  | some rd =>
    let time_difference := current_date_time - snapshot.created_at
    let created_since := timedelta_days time_difference
    some (decide (created_since > rd))

/-- Embedding of the eligibility guard at deletionsnappy.py:120:
`if snapshot.retention_days and snapshot.retention_days >= 0`.
Python truthiness: `None` is falsy, `0` is falsy, any other integer is
truthy; the second conjunct then tests `>= 0`. -/
def snapshot_eligible (s : Snapshot) : Bool :=
  match s.retention_days with
  | none => false
  | some n => decide (n ≠ 0) && decide (0 ≤ n)

/-- Embedding of `allowed_adhoc_backup_retention_days_list`
(backupsnappy.py:44-59). -/
def allowed_adhoc_backup_retention_days_list : List Int :=
  [3, 7, 15, 30, 45, 60, 67, 90, 180, 365, 730, 1095, 1460, 1825]

/-- Embedding of `__validate_allowed_adhoc_backup_retention_days`
(backupsnappy.py:86-102), applied to the already-parsed integer value:
raise unless the value is in the allowed list. -/
def validate_allowed_adhoc_backup_retention_days (rdays : Int) : Except String Unit :=
  if rdays ∈ allowed_adhoc_backup_retention_days_list then
    Except.ok ()
  else
    Except.error "The retention days for adhoc backup must be from the allowed list"

/-- Per-volume environment for the creation runbook: the outcomes of the
backend calls made for one AFS volume.  `exists_ok = false` means
`validate_afs_exists` raises; `already_today` is the result of
`is_snapshot_already_created_today` (or a raise); `limit_ok = false`
means `validate_afs_snapshots_storage_limit` raises; `create_ok = false`
means `create_snapshot` raises. -/
structure VolumeEnv where
  name : String
  exists_ok : Bool
  already_today : Except Unit Bool
  limit_ok : Bool
  create_ok : Bool

/-- Environment for one run of the creation runbook `backupsnappy.py`:
CLI mode, the parsed retention value, and the outcomes of every
account-level backend call, in program order. -/
structure BackupEnv where
  is_adhoc : Bool
  retention_days : Int
  numeric_ok : Bool
  token_ok : Bool
  validate_storage_ok : Bool
  is_softdelete_enabled : Except Unit Bool
  enable_softdelete_ok : Bool
  list_ok : Bool
  volumes : List VolumeEnv

/-- State threaded through the creation runbook's volume loop: the
`snapshots_created` counter, the alerts emitted so far by the loop, and
how many volumes have started their per-volume step. -/
structure LoopState where
  count : Nat
  alerts : List Alert
  processed : Nat
deriving Repr

/-- Boolean success of an `Except`-returning validation. -/
def exceptOk (e : Except String Unit) : Bool :=
  match e with
  | Except.ok _ => true
  | Except.error _ => false

/-- Embedding of `__enable_softdelete_in_file_share`
(backupsnappy.py:104-151): its whole body is wrapped in `try`; any raise
(from the enabled-check or from enabling) is converted into one FAIL
alert and swallowed.  The function's observable effect is the alerts it
emits. -/
def enable_softdelete_step (env : BackupEnv) : List Alert :=
  match env.is_softdelete_enabled with
  | Except.error _ => [⟨AlertType.FAIL, none⟩]
  | Except.ok true => []
  | Except.ok false =>
    if env.enable_softdelete_ok then [] else [⟨AlertType.FAIL, none⟩]

/-- Embedding of `__create_afs_snapshot` (backupsnappy.py:154-198):
validate the snapshot-count limit then create; a raise from either call
is caught, emits one FAIL alert, and the counter is incremented only when
`create_snapshot` returned.  Result: (counter increment, alerts). -/
def create_afs_snapshot_step (v : VolumeEnv) : Nat × List Alert :=
  if v.limit_ok then
    if v.create_ok then (1, [])
    else (0, [⟨AlertType.FAIL, none⟩])
  else (0, [⟨AlertType.FAIL, none⟩])

/-- One volume's creation step after the exists/idempotency gates: run
`__create_afs_snapshot`, then the unconditional per-volume SUCCESS alert
of backupsnappy.py:335-339. -/
def bk_after_create (st : LoopState) (v : VolumeEnv) : LoopState :=
  let r := create_afs_snapshot_step v
  { st with
      count := st.count + r.1,
      alerts := st.alerts ++ r.2 ++ [⟨AlertType.SUCCESS, some v.name⟩] }

/-- Embedding of the volume loop of `main` (backupsnappy.py:299-339).
`validate_afs_exists` and a raising `is_snapshot_already_created_today`
are NOT caught per-volume: they propagate out of the loop (`Except.error`
carries the state at the raise).  In ad-hoc mode the already-created
check is skipped; in automated mode an already-snapshotted volume is
skipped with `continue`. -/
def bk_run_volumes (adhoc : Bool) (st : LoopState) : List VolumeEnv → Except LoopState LoopState
  | [] => Except.ok st
  | v :: rest =>
    let st1 := { st with processed := st.processed + 1 }
    if v.exists_ok then
      if adhoc then
        bk_run_volumes adhoc (bk_after_create st1 v) rest
      else
        match v.already_today with
        | Except.error _ => Except.error st1
        | Except.ok true => bk_run_volumes adhoc st1 rest
        | Except.ok false => bk_run_volumes adhoc (bk_after_create st1 v) rest
    else Except.error st1

/-- Outcome of a whole run: alerts in emission order, final counter,
volumes whose per-volume step started, process exit code, and the values
of the counter reported by the end-of-run summary log line. -/
structure RunResult where
  alerts : List Alert
  count : Nat
  processed : Nat
  exitCode : Nat
  reports : List Nat
deriving Repr

/-- The top-level `except Exception` handler of `main`
(backupsnappy.py:346-359 and deletionsnappy.py:262-275): one FAIL alert,
exit code 1, no summary report. -/
def fatalResult (alerts : List Alert) (count processed : Nat) : RunResult :=
  { alerts := alerts ++ [⟨AlertType.FAIL, none⟩],
    count := count, processed := processed, exitCode := 1, reports := [] }

/-- Continuation of the creation runbook's `main` after storage-account
validation succeeded (backupsnappy.py:283-345), parameterised by the
alerts the soft-delete step emitted: list volumes (a raise is run-fatal);
`sys.exit(0)` when none are found (SystemExit is not caught by
`except Exception`); otherwise run the volume loop and, on normal
completion, report the final counter once. -/
def backup_post_validation (env : BackupEnv) (sdAlerts : List Alert) : RunResult :=
  if env.list_ok then
    if env.volumes.length < 1 then
      { alerts := sdAlerts, count := 0, processed := 0, exitCode := 0, reports := [] }
    else
      match bk_run_volumes env.is_adhoc ⟨0, [], 0⟩ env.volumes with
      | Except.error st => fatalResult (sdAlerts ++ st.alerts) st.count st.processed
      | Except.ok st =>
        { alerts := sdAlerts ++ st.alerts, count := st.count,
          processed := st.processed, exitCode := 0, reports := [st.count] }
  else fatalResult sdAlerts 0 0

/-- Embedding of `main` of `backupsnappy.py` (lines 202-359), in program
order: numeric validation of retention days, the ad-hoc allow-list check
(ad-hoc runs only), identity token, storage validation — each raise here
is run-fatal — then the best-effort soft-delete step and the volume
phase. -/
def backup_main (env : BackupEnv) : RunResult :=
  if env.numeric_ok then
    if env.is_adhoc && !(exceptOk (validate_allowed_adhoc_backup_retention_days env.retention_days)) then
      fatalResult [] 0 0
    else if !env.token_ok then fatalResult [] 0 0
    else if !env.validate_storage_ok then fatalResult [] 0 0
    else backup_post_validation env (enable_softdelete_step env)
  else fatalResult [] 0 0

/-- One snapshot as the deletion runbook's loop sees it: the record plus
whether `delete_snapshot` would succeed on it. -/
structure SnapEnv where
  snap : Snapshot
  delete_ok : Bool

/-- Per-volume environment for the deletion runbook. -/
structure DelVolumeEnv where
  name : String
  exists_ok : Bool
  get_snapshots_ok : Bool
  snapshots : List SnapEnv

/-- Environment for one run of `deletionsnappy.py`: the single
`current_date_time` captured at deletionsnappy.py:164 and the backend
call outcomes. -/
structure DeletionEnv where
  now : Int
  token_ok : Bool
  validate_storage_ok : Bool
  list_ok : Bool
  volumes : List DelVolumeEnv

/-- The expired/not-expired verdict the deletion loop computes for an
eligible snapshot (deletionsnappy.py:121). -/
def expired_verdict (now : Int) (s : Snapshot) : Bool :=
  has_snapshot_expired now s == some true

/-- Embedding of `__delete_snapshot` (deletionsnappy.py:52-91): the
delete call's raise is caught, yields a FAIL alert and no increment;
success increments `deleted_snapshots`. -/
def delete_snapshot_step (se : SnapEnv) : Nat × List Alert :=
  if se.delete_ok then (1, [])
  else (0, [⟨AlertType.FAIL, none⟩])

/-- Accumulator of the snapshot loop inside one AFS volume: deletion
count, alerts, and the (snapshot, verdict) pairs actually evaluated by
`__has_snapshot_expired`. -/
structure DelAcc where
  count : Nat
  alerts : List Alert
  verdicts : List (Snapshot × Bool)
deriving Repr

/-- Embedding of the snapshot loop of `__delete_snapshots_in_afs`
(deletionsnappy.py:119-135): eligible snapshots get their expiration
verdict computed (recorded in `verdicts`); expired ones are deleted via
`__delete_snapshot`; ineligible ones are skipped without evaluation. -/
def del_snap_loop (now : Int) (acc : DelAcc) : List SnapEnv → DelAcc
  | [] => acc
  | se :: rest =>
    if snapshot_eligible se.snap then
      let v := expired_verdict now se.snap
      let acc1 := { acc with verdicts := acc.verdicts ++ [(se.snap, v)] }
      if v then
        let r := delete_snapshot_step se
        del_snap_loop now
          { acc1 with count := acc1.count + r.1, alerts := acc1.alerts ++ r.2 } rest
      else del_snap_loop now acc1 rest
    else del_snap_loop now acc rest

/-- Embedding of `__delete_snapshots_in_afs` (deletionsnappy.py:94-150):
fetch the snapshot list (a raise is caught here, one FAIL alert), return
early when it is empty, else run the snapshot loop. -/
def delete_snapshots_in_afs (now : Int) (v : DelVolumeEnv) : DelAcc :=
  if v.get_snapshots_ok then
    if v.snapshots.length < 1 then ⟨0, [], []⟩
    else del_snap_loop now ⟨0, [], []⟩ v.snapshots
  else ⟨0, [⟨AlertType.FAIL, none⟩], []⟩

/-- State threaded through the deletion runbook's volume loop. -/
structure DelLoopState where
  count : Nat
  alerts : List Alert
  processed : Nat
  verdicts : List (Snapshot × Bool)
deriving Repr

/-- Embedding of the volume loop of `main` (deletionsnappy.py:230-254):
`validate_afs_exists` is not caught per-volume (its raise propagates,
`Except.error`); otherwise the per-volume deletion procedure runs and an
unconditional SUCCESS alert scoped to the volume follows. -/
def del_run_volumes (now : Int) (st : DelLoopState) : List DelVolumeEnv → Except DelLoopState DelLoopState
  | [] => Except.ok st
  | v :: rest =>
    let st1 := { st with processed := st.processed + 1 }
    if v.exists_ok then
      let r := delete_snapshots_in_afs now v
      del_run_volumes now
        { st1 with
            count := st1.count + r.count,
            alerts := st1.alerts ++ r.alerts ++ [⟨AlertType.SUCCESS, some v.name⟩],
            verdicts := st1.verdicts ++ r.verdicts } rest
    else Except.error st1

/-- Outcome of a deletion run, additionally exposing every
(snapshot, verdict) pair the run evaluated. -/
structure DelRunResult where
  alerts : List Alert
  count : Nat
  processed : Nat
  exitCode : Nat
  reports : List Nat
  verdicts : List (Snapshot × Bool)
deriving Repr

/-- Run-fatal exit of the deletion runbook (deletionsnappy.py:262-275). -/
def delFatal (alerts : List Alert) (count processed : Nat)
    (verdicts : List (Snapshot × Bool)) : DelRunResult :=
  ⟨alerts ++ [⟨AlertType.FAIL, none⟩], count, processed, 1, [], verdicts⟩

/-- Embedding of `main` of `deletionsnappy.py` (lines 154-275): token,
storage validation, volume listing (raises run-fatal), `sys.exit(0)` on
zero volumes, else the volume loop, reporting the final counter once on
normal completion. -/
def deletion_main (env : DeletionEnv) : DelRunResult :=
  if !env.token_ok then delFatal [] 0 0 []
  else if !env.validate_storage_ok then delFatal [] 0 0 []
  else if !env.list_ok then delFatal [] 0 0 []
  else if env.volumes.length < 1 then ⟨[], 0, 0, 0, [], []⟩
  else
    match del_run_volumes env.now ⟨0, [], 0, []⟩ env.volumes with
    | Except.error st => delFatal st.alerts st.count st.processed st.verdicts
    | Except.ok st => ⟨st.alerts, st.count, st.processed, 0, [st.count], st.verdicts⟩

/-- Final `snapshots_created` counter of the creation volume loop,
whether it finished or was aborted by a propagating exception. -/
def loopCount (e : Except LoopState LoopState) : Nat :=
  match e with
  | Except.ok st => st.count
  | Except.error st => st.count

/-- Final `deleted_snapshots` counter of the deletion volume loop. -/
def delLoopCount (e : Except DelLoopState DelLoopState) : Nat :=
  match e with
  | Except.ok st => st.count
  | Except.error st => st.count

/-- Verdicts evaluated by the deletion volume loop up to its outcome. -/
def delLoopVerdicts (e : Except DelLoopState DelLoopState) : List (Snapshot × Bool) :=
  match e with
  | Except.ok st => st.verdicts
  | Except.error st => st.verdicts

/-- Concrete two-volume creation environment: volume A's snapshot-count
limit check raises (limit exceeded), volume B's creation succeeds; every
account-level call succeeds and the run is automated. -/
def mixedCreationEnv : BackupEnv :=
  ⟨false, 30, true, true, true, Except.ok true, true, true,
    [⟨"volA", true, Except.ok false, false, true⟩,
     ⟨"volB", true, Except.ok false, true, true⟩]⟩

/-- Concrete deletion environment, two days after the epoch: the first
volume fails its existence check, the second holds one expired, deletable
snapshot. -/
def missingVolumeEnv : DeletionEnv :=
  ⟨172800, true, true, true,
    [⟨"gone", false, true, []⟩,
     ⟨"workload", true, true, [⟨⟨"old", 0, some 1⟩, true⟩]⟩]⟩

/-- Concrete three-volume deletion environment whose middle volume fails
the existence check. -/
def midFailureEnv : DeletionEnv :=
  ⟨172800, true, true, true,
    [⟨"v1", true, true, []⟩, ⟨"gone", false, true, []⟩, ⟨"v3", true, true, []⟩]⟩

/-- Creation-flow counterpart of `midFailureEnv`: the middle of three
volumes fails the existence check, the others would succeed. -/
def midFailureCreationEnv : BackupEnv :=
  ⟨false, 30, true, true, true, Except.ok true, true, true,
    [⟨"v1", true, Except.ok false, true, true⟩,
     ⟨"gone", false, Except.ok false, true, true⟩,
     ⟨"v3", true, Except.ok false, true, true⟩]⟩

/-- Concrete deletion environment, two days after the epoch, with two
volumes each holding one snapshot; the two snapshots share `created_at`
and `retention_days` but live in different volumes. -/
def twinSnapshotEnv : DeletionEnv :=
  ⟨172800, true, true, true,
    [⟨"va", true, true, [⟨⟨"a", 0, some 1⟩, true⟩]⟩,
     ⟨"vb", true, true, [⟨⟨"b", 0, some 1⟩, true⟩]⟩]⟩

end Runbooks

namespace Runbooks

/-- C1: for a snapshot with `retention_days = some rd`, the expiration
check returns true iff the floor of the elapsed time in whole days is
strictly greater than `rd`; elapsed exactly `rd` days is not expired,
elapsed `rd + 1` days is expired. -/
theorem c1_expiration_strict_floor (now : Int) (s : Snapshot) (rd : Int)
    (h : s.retention_days = some rd) :
    (has_snapshot_expired now s = some true ↔ timedelta_days (now - s.created_at) > rd)
    ∧ (timedelta_days (now - s.created_at) = rd → has_snapshot_expired now s = some false)
    ∧ (timedelta_days (now - s.created_at) = rd + 1 → has_snapshot_expired now s = some true) := by
  refine ⟨?_, ?_, ?_⟩
  · simp [has_snapshot_expired, h]
  · intro he
    simp [has_snapshot_expired, h, he]
  · intro he
    simp [has_snapshot_expired, h, he]

/-- Witness for C1: at `now = 432000` (5 days), a snapshot created at 0
with retention 4 has elapsed 4+1 days and is expired. -/
theorem c1_expiration_strict_floor_witness :
    has_snapshot_expired 432000 ⟨"s", 0, some 4⟩ = some true :=
  (c1_expiration_strict_floor 432000 ⟨"s", 0, some 4⟩ 4 rfl).2.2 (by decide)

/-- Verdicts already recorded are preserved by the snapshot loop. -/
lemma del_snap_loop_mem_mono (now : Int) (acc : DelAcc) (l : List SnapEnv)
    (p : Snapshot × Bool) (hp : p ∈ acc.verdicts) :
    p ∈ (del_snap_loop now acc l).verdicts := by
  induction l generalizing acc with
  | nil => simpa [del_snap_loop] using hp
  | cons se rest ih =>
    simp only [del_snap_loop]
    cases he : snapshot_eligible se.snap with
    | false => exact ih _ hp
    | true =>
      simp only [if_true]
      cases hv : expired_verdict now se.snap with
      | false =>
        simp only [Bool.false_eq_true, if_false]
        exact ih _ (by simp [hp])
      | true =>
        simp only [if_true]
        exact ih _ (by simp [hp])

/-- C2 counterexample: a snapshot with `retention_days = 0` is NOT
deletion-eligible — Python truthiness makes `0` falsy in
`if snapshot.retention_days and snapshot.retention_days >= 0` — so even
one full day after creation the deletion loop skips it without
evaluating expiration (no verdict, no deletion, no alert). -/
theorem c2_zero_retention_counterexample :
    snapshot_eligible ⟨"snap0", 0, some 0⟩ = false
    ∧ del_snap_loop 86400 ⟨0, [], []⟩ [⟨⟨"snap0", 0, some 0⟩, true⟩] = ⟨0, [], []⟩ :=
  ⟨rfl, rfl⟩

/-- C2 amended: a snapshot is evaluated for expiration (and thus
deletion-eligible) iff its `retention_days` is present and strictly
positive; a snapshot with null, zero, or negative retention is skipped
without evaluation, while an eligible one has its verdict computed. -/
theorem c2_eligibility_amended (now : Int) (acc : DelAcc) (se : SnapEnv)
    (rest : List SnapEnv) (s : Snapshot) :
    (snapshot_eligible s = true ↔ ∃ n, s.retention_days = some n ∧ 0 < n)
    ∧ (snapshot_eligible se.snap = false →
        del_snap_loop now acc (se :: rest) = del_snap_loop now acc rest)
    ∧ (snapshot_eligible se.snap = true →
        (se.snap, expired_verdict now se.snap) ∈ (del_snap_loop now acc (se :: rest)).verdicts) := by
  refine ⟨?_, ?_, ?_⟩
  · cases hr : s.retention_days with
    | none => simp [snapshot_eligible, hr]
    | some n =>
      simp only [snapshot_eligible, hr, Bool.and_eq_true, decide_eq_true_eq,
        Option.some.injEq]
      constructor
      · rintro ⟨h1, h2⟩
        exact ⟨n, rfl, by omega⟩
      · rintro ⟨m, hm, hpos⟩
        subst hm
        omega
  · intro he
    simp [del_snap_loop, he]
  · intro he
    simp only [del_snap_loop, he, if_true]
    cases hv : expired_verdict now se.snap with
    | false =>
      simp only [Bool.false_eq_true, if_false]
      exact del_snap_loop_mem_mono now _ rest _ (by simp)
    | true =>
      simp only [if_true]
      exact del_snap_loop_mem_mono now _ rest _ (by simp)

/-- Witness for C2 amended: a snapshot with retention 3 is eligible. -/
theorem c2_eligibility_amended_witness :
    snapshot_eligible ⟨"s", 0, some 3⟩ = true :=
  (c2_eligibility_amended 0 ⟨0, [], []⟩ ⟨⟨"s", 0, some 3⟩, true⟩ []
    ⟨"s", 0, some 3⟩).1.mpr ⟨3, rfl, by decide⟩

/-- C6: the ad-hoc retention validation succeeds exactly on the 14 values
of the fixed allowed set, and raises on every other integer. -/
theorem c6_adhoc_allowlist (r : Int) :
    validate_allowed_adhoc_backup_retention_days r = Except.ok () ↔
      (r = 3 ∨ r = 7 ∨ r = 15 ∨ r = 30 ∨ r = 45 ∨ r = 60 ∨ r = 67 ∨ r = 90
        ∨ r = 180 ∨ r = 365 ∨ r = 730 ∨ r = 1095 ∨ r = 1460 ∨ r = 1825) := by
  unfold validate_allowed_adhoc_backup_retention_days
  by_cases hmem : r ∈ allowed_adhoc_backup_retention_days_list
  · rw [if_pos hmem]
    simp only [allowed_adhoc_backup_retention_days_list, List.mem_cons,
      List.not_mem_nil, or_false] at hmem
    simpa using hmem
  · rw [if_neg hmem]
    simp only [allowed_adhoc_backup_retention_days_list, List.mem_cons,
      List.not_mem_nil, or_false] at hmem
    simpa using hmem

/-- Witness for C6: the validator accepts 90. -/
theorem c6_adhoc_allowlist_witness :
    validate_allowed_adhoc_backup_retention_days 90 = Except.ok () :=
  (c6_adhoc_allowlist 90).mpr (by decide)

/-- C5: in automated mode a volume whose snapshot was already created
today is skipped with no creation attempt (only the iteration counter
moves); in ad-hoc mode the already-created-today check is skipped and the
creation step always runs, whatever `already_today` would say. -/
theorem c5_idempotency_gate (st : LoopState) (v : VolumeEnv) (rest : List VolumeEnv)
    (hex : v.exists_ok = true) :
    (v.already_today = Except.ok true →
      bk_run_volumes false st (v :: rest)
        = bk_run_volumes false { st with processed := st.processed + 1 } rest)
    ∧ bk_run_volumes true st (v :: rest)
        = bk_run_volumes true (bk_after_create { st with processed := st.processed + 1 } v) rest := by
  constructor
  · intro ha
    simp [bk_run_volumes, hex, ha]
  · simp [bk_run_volumes, hex]

/-- Witness for C5: one already-snapshotted volume in automated mode
yields no creation, no alert, one volume visited. -/
theorem c5_idempotency_gate_witness :
    bk_run_volumes false ⟨0, [], 0⟩ [⟨"v", true, Except.ok true, true, true⟩]
      = Except.ok ⟨0, [], 1⟩ := by
  have h := (c5_idempotency_gate ⟨0, [], 0⟩ ⟨"v", true, Except.ok true, true, true⟩ [] rfl).1 rfl
  rw [h]
  rfl

/-- C7: with input validation and token acquisition succeeding, a failed
storage-account validation means no volume is processed, exactly one FAIL
alert, exit code 1; a successful validation with zero volumes found means
exit code 0 with nothing processed. -/
theorem c7_account_validation (env : BackupEnv)
    (hnum : env.numeric_ok = true)
    (hadh : env.is_adhoc = true →
      exceptOk (validate_allowed_adhoc_backup_retention_days env.retention_days) = true)
    (htok : env.token_ok = true) :
    (env.validate_storage_ok = false →
      (backup_main env).processed = 0
      ∧ (backup_main env).alerts = [⟨AlertType.FAIL, none⟩]
      ∧ (backup_main env).exitCode = 1)
    ∧ (env.validate_storage_ok = true → env.list_ok = true → env.volumes = [] →
      (backup_main env).exitCode = 0 ∧ (backup_main env).processed = 0
      ∧ (backup_main env).count = 0) := by
  have hguard : (env.is_adhoc
      && !(exceptOk (validate_allowed_adhoc_backup_retention_days env.retention_days))) = false := by
    cases hA : env.is_adhoc with
    | false => simp
    | true => simp [hadh hA]
  constructor
  · intro hst
    simp [backup_main, hnum, hguard, htok, hst, fatalResult]
  · intro hst hlist hvol
    simp [backup_main, hnum, hguard, htok, hst, backup_post_validation, hlist, hvol]

/-- Witness for C7: a run whose storage validation fails exits 1. -/
theorem c7_account_validation_witness :
    (backup_main ⟨false, 30, true, true, false, Except.ok true, true, true, []⟩).exitCode = 1 :=
  ((c7_account_validation ⟨false, 30, true, true, false, Except.ok true, true, true, []⟩
    rfl (fun h => nomatch h) rfl).1 rfl).2.2

/-- Soft-delete alerts only prefix the run's alert trace: every other
component of the post-validation outcome is independent of them. -/
lemma backup_post_validation_sd (env : BackupEnv) (sd : List Alert) :
    (backup_post_validation env sd).alerts = sd ++ (backup_post_validation env []).alerts
    ∧ (backup_post_validation env sd).exitCode = (backup_post_validation env []).exitCode
    ∧ (backup_post_validation env sd).count = (backup_post_validation env []).count
    ∧ (backup_post_validation env sd).processed = (backup_post_validation env []).processed
    ∧ (backup_post_validation env sd).reports = (backup_post_validation env []).reports := by
  unfold backup_post_validation
  by_cases hl : env.list_ok
  · simp only [hl, if_true]
    by_cases hv : env.volumes.length < 1
    · simp [hv]
    · simp only [hv, if_false]
      cases h : bk_run_volumes env.is_adhoc ⟨0, [], 0⟩ env.volumes with
      | error st => simp [fatalResult]
      | ok st => simp
  · simp only [Bool.not_eq_true] at hl
    simp [hl, fatalResult]

/-- C9: when the soft-delete check raises, or protection is disabled and
enabling it raises, the step emits exactly one FAIL alert and the run
proceeds to list volumes and create snapshots exactly as it would had the
step succeeded: only that prepended alert differs. -/
theorem c9_softdelete_nonfatal (env : BackupEnv)
    (hsd : env.is_softdelete_enabled = Except.error ()
      ∨ (env.is_softdelete_enabled = Except.ok false ∧ env.enable_softdelete_ok = false))
    (hnum : env.numeric_ok = true)
    (hadh : env.is_adhoc = true →
      exceptOk (validate_allowed_adhoc_backup_retention_days env.retention_days) = true)
    (htok : env.token_ok = true)
    (hst : env.validate_storage_ok = true) :
    enable_softdelete_step env = [⟨AlertType.FAIL, none⟩]
    ∧ (backup_main env).alerts = ⟨AlertType.FAIL, none⟩ :: (backup_post_validation env []).alerts
    ∧ (backup_main env).exitCode = (backup_post_validation env []).exitCode
    ∧ (backup_main env).count = (backup_post_validation env []).count
    ∧ (backup_main env).processed = (backup_post_validation env []).processed := by
  have hsd1 : enable_softdelete_step env = [⟨AlertType.FAIL, none⟩] := by
    rcases hsd with h | ⟨h1, h2⟩
    · simp [enable_softdelete_step, h]
    · simp [enable_softdelete_step, h1, h2]
  have hguard : (env.is_adhoc
      && !(exceptOk (validate_allowed_adhoc_backup_retention_days env.retention_days))) = false := by
    cases hA : env.is_adhoc with
    | false => simp
    | true => simp [hadh hA]
  have hmain : backup_main env = backup_post_validation env [⟨AlertType.FAIL, none⟩] := by
    simp [backup_main, hnum, hguard, htok, hst, hsd1]
  obtain ⟨h1, h2, h3, h4, h5⟩ := backup_post_validation_sd env [⟨AlertType.FAIL, none⟩]
  rw [hmain]
  exact ⟨hsd1, h1, h2, h3, h4⟩

/-- Witness for C9: soft-delete check raising on a zero-volume account
still ends the run with exit code 0, the FAIL alert being the only one. -/
theorem c9_softdelete_nonfatal_witness :
    enable_softdelete_step ⟨false, 30, true, true, true, Except.error (), true, true, []⟩
      = [⟨AlertType.FAIL, none⟩] :=
  (c9_softdelete_nonfatal ⟨false, 30, true, true, true, Except.error (), true, true, []⟩
    (Or.inl rfl) rfl (fun h => nomatch h) rfl rfl).1

/-- C3 counterexample: with the first volume missing from the backend and
a second volume holding an expired deletable snapshot, the deletion run
terminates at the first volume — exit code 1, one volume visited, zero
deletions, one FAIL alert — instead of continuing with the remaining
volumes as the claim states. -/
theorem c3_exists_failure_counterexample :
    deletion_main missingVolumeEnv = ⟨[⟨AlertType.FAIL, none⟩], 0, 1, 1, [], []⟩ := rfl

/-- Alert counts add up over concatenated traces. -/
lemma countAlerts_append (t : AlertType) (l1 l2 : List Alert) :
    countAlerts t (l1 ++ l2) = countAlerts t l1 + countAlerts t l2 := by
  simp [countAlerts, List.filter_append]

/-- When every volume of a list passes its existence check, the deletion
loop runs through it normally. -/
lemma del_run_volumes_ok_all (now : Int) (st : DelLoopState) (l : List DelVolumeEnv)
    (h : ∀ w ∈ l, w.exists_ok = true) :
    ∃ st2, del_run_volumes now st l = Except.ok st2 := by
  induction l generalizing st with
  | nil => exact ⟨st, rfl⟩
  | cons v rest ih =>
    have hex := h v (List.mem_cons_self _ _)
    have hrest : ∀ w ∈ rest, w.exists_ok = true :=
      fun w hw => h w (List.mem_cons_of_mem _ hw)
    simp only [del_run_volumes, hex, if_true]
    exact ih _ hrest

/-- When every volume passes its existence check and the idempotency
check returns without raising, the creation loop finishes normally. -/
lemma bk_run_volumes_ok (a : Bool) (st : LoopState) (l : List VolumeEnv)
    (h : ∀ w ∈ l, w.exists_ok = true ∧ ∃ b, w.already_today = Except.ok b) :
    ∃ st2, bk_run_volumes a st l = Except.ok st2 := by
  induction l generalizing st with
  | nil => exact ⟨st, rfl⟩
  | cons v rest ih =>
    obtain ⟨hex, b, hb⟩ := h v (List.mem_cons_self _ _)
    have hrest : ∀ w ∈ rest, w.exists_ok = true ∧ ∃ c, w.already_today = Except.ok c :=
      fun w hw => h w (List.mem_cons_of_mem _ hw)
    simp only [bk_run_volumes, hex, if_true]
    cases a with
    | true => exact ih _ hrest
    | false =>
      rw [hb]
      cases b with
      | true => exact ih _ hrest
      | false => exact ih _ hrest

/-- A normally completed creation loop has visited exactly its volumes. -/
lemma bk_run_volumes_processed (a : Bool) (st : LoopState) (l : List VolumeEnv)
    (st2 : LoopState) (h : bk_run_volumes a st l = Except.ok st2) :
    st2.processed = st.processed + l.length := by
  induction l generalizing st with
  | nil =>
    simp only [bk_run_volumes, Except.ok.injEq] at h
    rw [← h]
    simp
  | cons v rest ih =>
    simp only [bk_run_volumes] at h
    cases hex : v.exists_ok with
    | false =>
      rw [hex] at h
      simp at h
    | true =>
      rw [hex] at h
      simp only [if_true] at h
      cases a with
      | true =>
        simp only [if_true] at h
        have h2 := ih _ h
        simp only [bk_after_create, List.length_cons] at h2 ⊢
        omega
      | false =>
        simp only [Bool.false_eq_true, if_false] at h
        cases hat : v.already_today with
        | error u =>
          rw [hat] at h
          simp at h
        | ok b =>
          rw [hat] at h
          cases b with
          | true =>
            have h2 := ih _ h
            simp only [List.length_cons] at h2 ⊢
            omega
          | false =>
            have h2 := ih _ h
            simp only [bk_after_create, List.length_cons] at h2 ⊢
            omega

/-- A normally completed deletion loop has visited exactly its volumes. -/
lemma del_run_volumes_processed (now : Int) (st : DelLoopState) (l : List DelVolumeEnv)
    (st2 : DelLoopState) (h : del_run_volumes now st l = Except.ok st2) :
    st2.processed = st.processed + l.length := by
  induction l generalizing st with
  | nil =>
    simp only [del_run_volumes, Except.ok.injEq] at h
    rw [← h]
    simp
  | cons v rest ih =>
    simp only [del_run_volumes] at h
    cases hex : v.exists_ok with
    | false =>
      rw [hex] at h
      simp at h
    | true =>
      rw [hex] at h
      simp only [if_true] at h
      have h2 := ih _ h
      simp only [List.length_cons] at h2 ⊢
      omega

/-- If the deletion loop completes a prefix and the next volume fails its
existence check, the loop on the extended list raises right there, with
the state reached after the prefix. -/
lemma del_run_volumes_append_abort (now : Int) (st : DelLoopState) (pre : List DelVolumeEnv)
    (v : DelVolumeEnv) (rest : List DelVolumeEnv) (st2 : DelLoopState)
    (hpre : del_run_volumes now st pre = Except.ok st2) (hv : v.exists_ok = false) :
    del_run_volumes now st (pre ++ v :: rest)
      = Except.error { st2 with processed := st2.processed + 1 } := by
  induction pre generalizing st with
  | nil =>
    simp only [del_run_volumes, Except.ok.injEq] at hpre
    subst hpre
    simp only [List.nil_append, del_run_volumes, hv, Bool.false_eq_true, if_false]
  | cons w ws ih =>
    rw [List.cons_append]
    simp only [del_run_volumes] at hpre ⊢
    cases hw : w.exists_ok with
    | false =>
      rw [hw] at hpre
      simp at hpre
    | true =>
      rw [hw] at hpre
      simp only [if_true] at hpre ⊢
      exact ih _ hpre

/-- Creation-flow analogue of `del_run_volumes_append_abort`. -/
lemma bk_run_volumes_append_abort (a : Bool) (st : LoopState) (pre : List VolumeEnv)
    (v : VolumeEnv) (rest : List VolumeEnv) (st2 : LoopState)
    (hpre : bk_run_volumes a st pre = Except.ok st2) (hv : v.exists_ok = false) :
    bk_run_volumes a st (pre ++ v :: rest)
      = Except.error { st2 with processed := st2.processed + 1 } := by
  induction pre generalizing st with
  | nil =>
    simp only [bk_run_volumes, Except.ok.injEq] at hpre
    subst hpre
    simp only [List.nil_append, bk_run_volumes, hv, Bool.false_eq_true, if_false]
  | cons w ws ih =>
    rw [List.cons_append]
    simp only [bk_run_volumes] at hpre ⊢
    cases hw : w.exists_ok with
    | false =>
      rw [hw] at hpre
      simp at hpre
    | true =>
      rw [hw] at hpre
      simp only [if_true] at hpre ⊢
      cases a with
      | true =>
        simp only [if_true] at hpre ⊢
        exact ih _ hpre
      | false =>
        simp only [Bool.false_eq_true, if_false] at hpre ⊢
        cases hat : w.already_today with
        | error u =>
          rw [hat] at hpre
          simp at hpre
        | ok b =>
          rw [hat] at hpre
          cases b with
          | true => exact ih _ hpre
          | false => exact ih _ hpre

/-- A deletion run whose volume list has a volume failing the existence
check, after a prefix of existing volumes, ends through the top-level
handler with the state reached so far. -/
lemma deletion_main_abort (env : DeletionEnv) (pre : List DelVolumeEnv) (v : DelVolumeEnv)
    (rest : List DelVolumeEnv) (st2 : DelLoopState)
    (h1 : env.token_ok = true) (h2 : env.validate_storage_ok = true)
    (h3 : env.list_ok = true) (h4 : env.volumes = pre ++ v :: rest) (h5 : v.exists_ok = false)
    (hok : del_run_volumes env.now ⟨0, [], 0, []⟩ pre = Except.ok st2) :
    deletion_main env = delFatal st2.alerts st2.count (st2.processed + 1) st2.verdicts := by
  unfold deletion_main
  rw [h1, h2, h3, h4]
  simp only [Bool.not_true, Bool.false_eq_true, if_false]
  rw [if_neg (by simp)]
  rw [del_run_volumes_append_abort env.now ⟨0, [], 0, []⟩ pre v rest st2 hok h5]

/-- Creation-flow analogue of `deletion_main_abort`: the run ends through
the top-level handler, keeping the soft-delete step's alerts and those
of the volumes already visited. -/
lemma backup_main_abort (env : BackupEnv) (pre : List VolumeEnv) (v : VolumeEnv)
    (rest : List VolumeEnv) (st2 : LoopState)
    (h1 : env.numeric_ok = true)
    (h2 : env.is_adhoc = true →
      exceptOk (validate_allowed_adhoc_backup_retention_days env.retention_days) = true)
    (h3 : env.token_ok = true) (h4 : env.validate_storage_ok = true)
    (h5 : env.list_ok = true) (h6 : env.volumes = pre ++ v :: rest) (h7 : v.exists_ok = false)
    (hok : bk_run_volumes env.is_adhoc ⟨0, [], 0⟩ pre = Except.ok st2) :
    backup_main env
      = fatalResult (enable_softdelete_step env ++ st2.alerts) st2.count (st2.processed + 1) := by
  have hguard : (env.is_adhoc
      && !(exceptOk (validate_allowed_adhoc_backup_retention_days env.retention_days))) = false := by
    cases hA : env.is_adhoc with
    | false => simp
    | true => simp [h2 hA]
  unfold backup_main
  rw [h1, hguard, h3, h4]
  simp only [Bool.not_true, Bool.false_eq_true, if_false, if_true]
  unfold backup_post_validation
  rw [h5, h6]
  simp only [if_true]
  rw [if_neg (by simp)]
  rw [bk_run_volumes_append_abort env.is_adhoc ⟨0, [], 0⟩ pre v rest st2 hok h7]

/-- C3 amended: for EVERY volume in the filtered list, a failed existence
check is NOT caught at the per-volume boundary — the exception propagates
to the top-level handler, which terminates the whole run with exit code 1
and one additional FAIL alert; the volumes before the failing one have
been processed normally, the failing one only starts its step, and the
volumes after it are never processed.  Per-volume isolation only covers
the snapshot-creation/deletion helpers. -/
theorem c3_exists_failure_amended (denv : DeletionEnv) (dpre : List DelVolumeEnv)
    (dv : DelVolumeEnv) (drest : List DelVolumeEnv)
    (benv : BackupEnv) (bpre : List VolumeEnv) (bv : VolumeEnv) (brest : List VolumeEnv)
    (hd1 : denv.token_ok = true) (hd2 : denv.validate_storage_ok = true)
    (hd3 : denv.list_ok = true) (hd4 : denv.volumes = dpre ++ dv :: drest)
    (hd5 : dv.exists_ok = false) (hd6 : ∀ w ∈ dpre, w.exists_ok = true)
    (hb1 : benv.numeric_ok = true)
    (hb2 : benv.is_adhoc = true →
      exceptOk (validate_allowed_adhoc_backup_retention_days benv.retention_days) = true)
    (hb3 : benv.token_ok = true) (hb4 : benv.validate_storage_ok = true)
    (hb5 : benv.list_ok = true) (hb6 : benv.volumes = bpre ++ bv :: brest)
    (hb7 : bv.exists_ok = false)
    (hb8 : ∀ w ∈ bpre, w.exists_ok = true ∧ ∃ b, w.already_today = Except.ok b) :
    ((deletion_main denv).exitCode = 1
      ∧ (deletion_main denv).processed = dpre.length + 1
      ∧ ∃ st2, del_run_volumes denv.now ⟨0, [], 0, []⟩ dpre = Except.ok st2
          ∧ deletion_main denv = delFatal st2.alerts st2.count (st2.processed + 1) st2.verdicts
          ∧ countAlerts AlertType.FAIL (deletion_main denv).alerts
              = countAlerts AlertType.FAIL st2.alerts + 1)
    ∧ ((backup_main benv).exitCode = 1
      ∧ (backup_main benv).processed = bpre.length + 1
      ∧ ∃ st2, bk_run_volumes benv.is_adhoc ⟨0, [], 0⟩ bpre = Except.ok st2
          ∧ backup_main benv
              = fatalResult (enable_softdelete_step benv ++ st2.alerts) st2.count
                  (st2.processed + 1)) := by
  obtain ⟨dst2, hdok⟩ := del_run_volumes_ok_all denv.now ⟨0, [], 0, []⟩ dpre hd6
  have hdmain := deletion_main_abort denv dpre dv drest dst2 hd1 hd2 hd3 hd4 hd5 hdok
  have hdproc := del_run_volumes_processed denv.now ⟨0, [], 0, []⟩ dpre dst2 hdok
  obtain ⟨bst2, hbok⟩ := bk_run_volumes_ok benv.is_adhoc ⟨0, [], 0⟩ bpre hb8
  have hbmain := backup_main_abort benv bpre bv brest bst2 hb1 hb2 hb3 hb4 hb5 hb6 hb7 hbok
  have hbproc := bk_run_volumes_processed benv.is_adhoc ⟨0, [], 0⟩ bpre bst2 hbok
  constructor
  · refine ⟨?_, ?_, dst2, hdok, hdmain, ?_⟩
    · rw [hdmain]
      rfl
    · rw [hdmain]
      show dst2.processed + 1 = dpre.length + 1
      simp only at hdproc
      omega
    · rw [hdmain]
      show countAlerts AlertType.FAIL (dst2.alerts ++ [⟨AlertType.FAIL, none⟩])
        = countAlerts AlertType.FAIL dst2.alerts + 1
      rw [countAlerts_append]
      rfl
  · refine ⟨?_, ?_, bst2, hbok, hbmain⟩
    · rw [hbmain]
      rfl
    · rw [hbmain]
      show bst2.processed + 1 = bpre.length + 1
      simp only at hbproc
      omega

/-- Witness for C3 amended: three volumes, the middle one missing — both
runs exit 1 having visited only the first two volumes. -/
theorem c3_exists_failure_amended_witness :
    (deletion_main midFailureEnv).exitCode = 1
    ∧ (deletion_main midFailureEnv).processed = 2
    ∧ (backup_main midFailureCreationEnv).exitCode = 1
    ∧ (backup_main midFailureCreationEnv).processed = 2 := by
  have h := c3_exists_failure_amended midFailureEnv
    [⟨"v1", true, true, []⟩] ⟨"gone", false, true, []⟩ [⟨"v3", true, true, []⟩]
    midFailureCreationEnv
    [⟨"v1", true, Except.ok false, true, true⟩] ⟨"gone", false, Except.ok false, true, true⟩
    [⟨"v3", true, Except.ok false, true, true⟩]
    rfl rfl rfl rfl rfl
    (by
      intro w hw
      simp only [List.mem_singleton] at hw
      subst hw
      rfl)
    rfl (fun hx => nomatch hx) rfl rfl rfl rfl rfl
    (by
      intro w hw
      simp only [List.mem_singleton] at hw
      subst hw
      exact ⟨rfl, false, rfl⟩)
  exact ⟨h.1.1, h.1.2.1, h.2.1, h.2.2.1⟩

/-- C4: evaluation of the creation run at the claim's own scenario — the
first volume's limit check raises, the second volume's creation succeeds.
The run ends with `snapshots_created = 1`, exit code 0 and one FAIL
alert, but TWO SUCCESS alerts: the per-volume SUCCESS alert is emitted
unconditionally after `__create_afs_snapshot` swallowed the failure,
contradicting the source's own comment that the alert follows the
successful creation of the snapshot. -/
theorem c4_unconditional_success_alert :
    backup_main mixedCreationEnv
      = ⟨[⟨AlertType.FAIL, none⟩, ⟨AlertType.SUCCESS, some "volA"⟩,
          ⟨AlertType.SUCCESS, some "volB"⟩], 1, 2, 0, [1]⟩
    ∧ countAlerts AlertType.FAIL (backup_main mixedCreationEnv).alerts = 1
    ∧ countAlerts AlertType.SUCCESS (backup_main mixedCreationEnv).alerts = 2
    ∧ (backup_main mixedCreationEnv).count = 1
    ∧ (backup_main mixedCreationEnv).exitCode = 0 :=
  ⟨rfl, rfl, rfl, rfl, rfl⟩

/-- The creation loop never decreases the `snapshots_created` counter. -/
lemma bk_count_mono (a : Bool) (st : LoopState) (l : List VolumeEnv) :
    st.count ≤ loopCount (bk_run_volumes a st l) := by
  induction l generalizing st with
  | nil => simp [bk_run_volumes, loopCount]
  | cons v rest ih =>
    simp only [bk_run_volumes]
    cases hex : v.exists_ok with
    | false => simp [loopCount]
    | true =>
      simp only [if_true]
      have hcreate : st.count ≤ (bk_after_create ⟨st.count, st.alerts, st.processed + 1⟩ v).count :=
        Nat.le_add_right _ _
      have hrec := ih (bk_after_create ⟨st.count, st.alerts, st.processed + 1⟩ v)
      cases a with
      | true => exact le_trans hcreate hrec
      | false =>
        simp only [Bool.false_eq_true, if_false]
        cases v.already_today with
        | error u => simp [loopCount]
        | ok b =>
          cases b with
          | true => exact ih ⟨st.count, st.alerts, st.processed + 1⟩
          | false => exact le_trans hcreate hrec

/-- The deletion loop never decreases the `deleted_snapshots` counter. -/
lemma del_count_mono (now : Int) (st : DelLoopState) (l : List DelVolumeEnv) :
    st.count ≤ delLoopCount (del_run_volumes now st l) := by
  induction l generalizing st with
  | nil => simp [del_run_volumes, delLoopCount]
  | cons v rest ih =>
    simp only [del_run_volumes]
    cases hex : v.exists_ok with
    | false => simp [delLoopCount]
    | true =>
      simp only [if_true]
      have hrec := ih ⟨st.count + (delete_snapshots_in_afs now v).count,
        st.alerts ++ (delete_snapshots_in_afs now v).alerts
          ++ [⟨AlertType.SUCCESS, some v.name⟩],
        st.processed + 1,
        st.verdicts ++ (delete_snapshots_in_afs now v).verdicts⟩
      exact le_trans (Nat.le_add_right st.count _) hrec

/-- Outcome shape of a creation run: either it never reports the counter
(early exit on zero volumes, or any run-fatal path), or it exits 0 having
found volumes and reports the final counter exactly once. -/
lemma backup_main_report_shape (env : BackupEnv) :
    (backup_main env).reports = []
    ∨ ((backup_main env).exitCode = 0 ∧ env.volumes ≠ []
        ∧ (backup_main env).reports = [(backup_main env).count]) := by
  unfold backup_main
  cases h1 : env.numeric_ok with
  | false => simp [fatalResult]
  | true =>
    simp only [if_true]
    cases h2 : env.is_adhoc
        && !(exceptOk (validate_allowed_adhoc_backup_retention_days env.retention_days)) with
    | true => simp [fatalResult]
    | false =>
      simp only [Bool.false_eq_true, if_false]
      cases h3 : env.token_ok with
      | false => simp [fatalResult]
      | true =>
        simp only [Bool.not_true, Bool.false_eq_true, if_false]
        cases h4 : env.validate_storage_ok with
        | false => simp [fatalResult]
        | true =>
          simp only [Bool.not_true, Bool.false_eq_true, if_false]
          unfold backup_post_validation
          cases h5 : env.list_ok with
          | false => simp [fatalResult]
          | true =>
            simp only [if_true]
            by_cases h6 : env.volumes.length < 1
            · rw [if_pos h6]
              simp
            · rw [if_neg h6]
              cases h7 : bk_run_volumes env.is_adhoc ⟨0, [], 0⟩ env.volumes with
              | error st => simp [fatalResult]
              | ok st =>
                refine Or.inr ⟨rfl, ?_, rfl⟩
                intro hnil
                rw [hnil] at h6
                simp at h6

/-- Outcome shape of a deletion run: either it never reports the counter
(early exit on zero volumes, or any run-fatal path), or it exits 0 having
found volumes and reports the final counter exactly once. -/
lemma deletion_main_report_shape (env : DeletionEnv) :
    (deletion_main env).reports = []
    ∨ ((deletion_main env).exitCode = 0 ∧ env.volumes ≠ []
        ∧ (deletion_main env).reports = [(deletion_main env).count]) := by
  unfold deletion_main
  cases h1 : env.token_ok with
  | false => simp [delFatal]
  | true =>
    simp only [Bool.not_true, Bool.false_eq_true, if_false]
    cases h2 : env.validate_storage_ok with
    | false => simp [delFatal]
    | true =>
      simp only [Bool.not_true, Bool.false_eq_true, if_false]
      cases h3 : env.list_ok with
      | false => simp [delFatal]
      | true =>
        simp only [Bool.not_true, Bool.false_eq_true, if_false]
        by_cases h4 : env.volumes.length < 1
        · rw [if_pos h4]
          simp
        · rw [if_neg h4]
          cases h5 : del_run_volumes env.now ⟨0, [], 0, []⟩ env.volumes with
          | error st => simp [delFatal]
          | ok st =>
            refine Or.inr ⟨rfl, ?_, rfl⟩
            intro hnil
            rw [hnil] at h4
            simp at h4

/-- C8 counterexample: a creation run that finds zero volumes exits 0
before the summary line — the counters are reported zero times, not
exactly once. -/
theorem c8_report_counterexample :
    (backup_main ⟨false, 30, true, true, true, Except.ok true, true, true, []⟩).reports = []
    ∧ (backup_main ⟨false, 30, true, true, true, Except.ok true, true, true, []⟩).exitCode = 0 :=
  ⟨rfl, rfl⟩

/-- C8 amended: the run counters are incremented exactly when the
corresponding mutating call returns successfully (never when it raises),
are never decremented anywhere in either volume loop, and — in BOTH flows
— their final value is reported exactly once when the run completes its
volume iteration, while runs that exit early (zero volumes found, or any
run-fatal error) emit no report at all. -/
theorem c8_counters_amended (v : VolumeEnv) (se : SnapEnv) (a : Bool) (st : LoopState)
    (l : List VolumeEnv) (now : Int) (dst : DelLoopState) (dl : List DelVolumeEnv)
    (env : BackupEnv) (denv : DeletionEnv)
    (hnum : env.numeric_ok = true)
    (hadh : env.is_adhoc = true →
      exceptOk (validate_allowed_adhoc_backup_retention_days env.retention_days) = true)
    (htok : env.token_ok = true) (hst : env.validate_storage_ok = true)
    (hl : env.list_ok = true) (hvol : env.volumes ≠ [])
    (hex : ∀ w ∈ env.volumes, w.exists_ok = true ∧ ∃ b, w.already_today = Except.ok b)
    (hdt : denv.token_ok = true) (hds : denv.validate_storage_ok = true)
    (hdl : denv.list_ok = true) (hdvol : denv.volumes ≠ [])
    (hdex : ∀ w ∈ denv.volumes, w.exists_ok = true) :
    ((create_afs_snapshot_step v).1 = if v.limit_ok && v.create_ok then 1 else 0)
    ∧ ((delete_snapshot_step se).1 = if se.delete_ok then 1 else 0)
    ∧ st.count ≤ loopCount (bk_run_volumes a st l)
    ∧ dst.count ≤ delLoopCount (del_run_volumes now dst dl)
    ∧ (backup_main env).reports = [(backup_main env).count]
    ∧ (deletion_main denv).reports = [(deletion_main denv).count]
    ∧ (∀ e2 : BackupEnv, (backup_main e2).exitCode = 1 → (backup_main e2).reports = [])
    ∧ (∀ e2 : BackupEnv, e2.volumes = [] → (backup_main e2).reports = [])
    ∧ (∀ d2 : DeletionEnv, (deletion_main d2).exitCode = 1 → (deletion_main d2).reports = [])
    ∧ (∀ d2 : DeletionEnv, d2.volumes = [] → (deletion_main d2).reports = []) := by
  have hguard : (env.is_adhoc
      && !(exceptOk (validate_allowed_adhoc_backup_retention_days env.retention_days))) = false := by
    cases hA : env.is_adhoc with
    | false => simp
    | true => simp [hadh hA]
  refine ⟨?_, ?_, bk_count_mono a st l, del_count_mono now dst dl, ?_, ?_, ?_, ?_, ?_, ?_⟩
  · cases hl2 : v.limit_ok <;> cases hc : v.create_ok <;>
      simp [create_afs_snapshot_step, hl2, hc]
  · cases hd : se.delete_ok <;> simp [delete_snapshot_step, hd]
  · obtain ⟨st2, hst2⟩ := bk_run_volumes_ok env.is_adhoc ⟨0, [], 0⟩ env.volumes hex
    have hmain : backup_main env = backup_post_validation env (enable_softdelete_step env) := by
      simp [backup_main, hnum, hguard, htok, hst]
    have hlen : ¬ env.volumes.length < 1 := by
      cases hv : env.volumes with
      | nil => exact absurd hv hvol
      | cons w ws => simp [hv]
    rw [hmain]
    unfold backup_post_validation
    rw [hl, if_neg hlen, hst2]
    simp
  · obtain ⟨st2, hst2⟩ := del_run_volumes_ok_all denv.now ⟨0, [], 0, []⟩ denv.volumes hdex
    have hlen : ¬ denv.volumes.length < 1 := by
      cases hv2 : denv.volumes with
      | nil => exact absurd hv2 hdvol
      | cons w ws => simp [hv2]
    unfold deletion_main
    rw [hdt, hds, hdl]
    simp only [Bool.not_true, Bool.false_eq_true, if_false]
    rw [if_neg hlen, hst2]
  · intro e2 he2
    rcases backup_main_report_shape e2 with h | ⟨hz, _, _⟩
    · exact h
    · exact absurd (hz.symm.trans he2) (by decide)
  · intro e2 he2
    rcases backup_main_report_shape e2 with h | ⟨_, hne, _⟩
    · exact h
    · exact absurd he2 hne
  · intro d2 hd2
    rcases deletion_main_report_shape d2 with h | ⟨hz, _, _⟩
    · exact h
    · exact absurd (hz.symm.trans hd2) (by decide)
  · intro d2 hd2
    rcases deletion_main_report_shape d2 with h | ⟨_, hne, _⟩
    · exact h
    · exact absurd hd2 hne

/-- Witness for C8 amended: a one-volume all-success creation run and a
one-volume deletion run each report their final counter exactly once. -/
theorem c8_counters_amended_witness :
    (backup_main ⟨false, 30, true, true, true, Except.ok true, true, true,
        [⟨"v", true, Except.ok false, true, true⟩]⟩).reports
      = [(backup_main ⟨false, 30, true, true, true, Except.ok true, true, true,
        [⟨"v", true, Except.ok false, true, true⟩]⟩).count]
    ∧ (deletion_main ⟨0, true, true, true, [⟨"dv", true, true, []⟩]⟩).reports
      = [(deletion_main ⟨0, true, true, true, [⟨"dv", true, true, []⟩]⟩).count] := by
  have h := c8_counters_amended ⟨"v", true, Except.ok false, true, true⟩
    ⟨⟨"s", 0, some 1⟩, true⟩ false ⟨0, [], 0⟩ [] 0 ⟨0, [], 0, []⟩ []
    ⟨false, 30, true, true, true, Except.ok true, true, true,
      [⟨"v", true, Except.ok false, true, true⟩]⟩
    ⟨0, true, true, true, [⟨"dv", true, true, []⟩]⟩
    rfl (fun hx => nomatch hx) rfl rfl rfl (by simp)
    (by
      intro w hw
      simp only [List.mem_singleton] at hw
      subst hw
      exact ⟨rfl, false, rfl⟩)
    rfl rfl rfl (by simp)
    (by
      intro w hw
      simp only [List.mem_singleton] at hw
      subst hw
      rfl)
  exact ⟨h.2.2.2.2.1, h.2.2.2.2.2.1⟩

/-- Every verdict the snapshot loop records is the expiration verdict at
the loop's single `now`. -/
lemma del_snap_loop_verdicts_sound (now : Int) (acc : DelAcc) (l : List SnapEnv) :
    ∀ p ∈ (del_snap_loop now acc l).verdicts,
      p ∈ acc.verdicts ∨ p.2 = expired_verdict now p.1 := by
  induction l generalizing acc with
  | nil =>
    intro p hp
    exact Or.inl (by simpa [del_snap_loop] using hp)
  | cons se rest ih =>
    intro p hp
    simp only [del_snap_loop] at hp
    cases he : snapshot_eligible se.snap with
    | false =>
      rw [he] at hp
      simp only [Bool.false_eq_true, if_false] at hp
      exact ih acc p hp
    | true =>
      rw [he] at hp
      simp only [if_true] at hp
      cases hv : expired_verdict now se.snap with
      | false =>
        rw [hv] at hp
        simp only [Bool.false_eq_true, if_false] at hp
        rcases ih _ p hp with hmem | hval
        · simp only [List.mem_append, List.mem_singleton] at hmem
          rcases hmem with hmem | hmem
          · exact Or.inl hmem
          · subst hmem
            exact Or.inr (by rw [hv])
        · exact Or.inr hval
      | true =>
        rw [hv] at hp
        simp only [if_true] at hp
        rcases ih _ p hp with hmem | hval
        · simp only [List.mem_append, List.mem_singleton] at hmem
          rcases hmem with hmem | hmem
          · exact Or.inl hmem
          · subst hmem
            exact Or.inr (by rw [hv])
        · exact Or.inr hval

/-- Every verdict one volume's deletion procedure records is the
expiration verdict at the run's single `now`. -/
lemma delete_snapshots_in_afs_verdicts_sound (now : Int) (v : DelVolumeEnv) :
    ∀ p ∈ (delete_snapshots_in_afs now v).verdicts, p.2 = expired_verdict now p.1 := by
  intro p hp
  unfold delete_snapshots_in_afs at hp
  cases hg : v.get_snapshots_ok with
  | false =>
    rw [hg] at hp
    simp at hp
  | true =>
    rw [hg] at hp
    simp only [if_true] at hp
    by_cases hlen : v.snapshots.length < 1
    · rw [if_pos hlen] at hp
      simp at hp
    · rw [if_neg hlen] at hp
      rcases del_snap_loop_verdicts_sound now ⟨0, [], []⟩ v.snapshots p hp with hmem | hval
      · simp at hmem
      · exact hval

/-- Every verdict the deletion volume loop records is the expiration
verdict at the run's single `now`. -/
lemma del_run_volumes_verdicts_sound (now : Int) (st : DelLoopState) (l : List DelVolumeEnv) :
    ∀ p ∈ delLoopVerdicts (del_run_volumes now st l),
      p ∈ st.verdicts ∨ p.2 = expired_verdict now p.1 := by
  induction l generalizing st with
  | nil =>
    intro p hp
    exact Or.inl (by simpa [del_run_volumes, delLoopVerdicts] using hp)
  | cons v rest ih =>
    intro p hp
    simp only [del_run_volumes] at hp
    cases hex : v.exists_ok with
    | false =>
      rw [hex] at hp
      simp only [Bool.false_eq_true, if_false, delLoopVerdicts] at hp
      exact Or.inl hp
    | true =>
      rw [hex] at hp
      simp only [if_true] at hp
      rcases ih _ p hp with hmem | hval
      · simp only [List.mem_append] at hmem
        rcases hmem with hmem | hmem
        · exact Or.inl hmem
        · exact Or.inr (delete_snapshots_in_afs_verdicts_sound now v p hmem)
      · exact Or.inr hval

/-- Every verdict a whole deletion run records is the expiration verdict
at the single `current_date_time` captured at the start of the run. -/
lemma deletion_main_verdicts_sound (env : DeletionEnv) :
    ∀ p ∈ (deletion_main env).verdicts, p.2 = expired_verdict env.now p.1 := by
  intro p hp
  unfold deletion_main at hp
  cases ht : env.token_ok with
  | false => rw [ht] at hp; simp [delFatal] at hp
  | true =>
    rw [ht] at hp
    simp only [Bool.not_true, Bool.false_eq_true, if_false] at hp
    cases hs : env.validate_storage_ok with
    | false => rw [hs] at hp; simp [delFatal] at hp
    | true =>
      rw [hs] at hp
      simp only [Bool.not_true, Bool.false_eq_true, if_false] at hp
      cases hlo : env.list_ok with
      | false => rw [hlo] at hp; simp [delFatal] at hp
      | true =>
        rw [hlo] at hp
        simp only [Bool.not_true, Bool.false_eq_true, if_false] at hp
        by_cases hlen : env.volumes.length < 1
        · rw [if_pos hlen] at hp
          simp at hp
        · rw [if_neg hlen] at hp
          cases hrun : del_run_volumes env.now ⟨0, [], 0, []⟩ env.volumes with
          | error st =>
            rw [hrun] at hp
            simp only [delFatal] at hp
            have := del_run_volumes_verdicts_sound env.now ⟨0, [], 0, []⟩ env.volumes p
            rw [hrun] at this
            rcases this hp with hmem | hval
            · simp at hmem
            · exact hval
          | ok st =>
            rw [hrun] at hp
            simp only at hp
            have := del_run_volumes_verdicts_sound env.now ⟨0, [], 0, []⟩ env.volumes p
            rw [hrun] at this
            rcases this hp with hmem | hval
            · simp at hmem
            · exact hval

/-- The expiration verdict depends only on `now`, `created_at` and
`retention_days`. -/
lemma expired_verdict_congr (now : Int) (s1 s2 : Snapshot)
    (hc : s1.created_at = s2.created_at) (hr : s1.retention_days = s2.retention_days) :
    expired_verdict now s1 = expired_verdict now s2 := by
  unfold expired_verdict has_snapshot_expired
  rw [hc, hr]

/-- C10: within one deletion run, every evaluated snapshot's verdict is
the expiration check at the single `current_date_time` captured at run
start, so two snapshots with equal `created_at` and `retention_days`
receive the same verdict regardless of volume or position. -/
theorem c10_single_now_verdicts (env : DeletionEnv) (s1 s2 : Snapshot) (b1 b2 : Bool)
    (h1 : (s1, b1) ∈ (deletion_main env).verdicts)
    (h2 : (s2, b2) ∈ (deletion_main env).verdicts)
    (hc : s1.created_at = s2.created_at) (hr : s1.retention_days = s2.retention_days) :
    b1 = expired_verdict env.now s1 ∧ b1 = b2 := by
  have e1 : b1 = expired_verdict env.now s1 :=
    deletion_main_verdicts_sound env (s1, b1) h1
  have e2 : b2 = expired_verdict env.now s2 :=
    deletion_main_verdicts_sound env (s2, b2) h2
  refine ⟨e1, ?_⟩
  rw [e1, e2]
  exact expired_verdict_congr env.now s1 s2 hc hr

/-- Witness for C10: two snapshots with identical creation time and
retention, in different volumes of the same run, both come out
expired. -/
theorem c10_single_now_verdicts_witness :
    true = expired_verdict twinSnapshotEnv.now ⟨"a", 0, some 1⟩ ∧ true = true := by
  have h1 : ((⟨"a", 0, some 1⟩ : Snapshot), true) ∈ (deletion_main twinSnapshotEnv).verdicts := by
    decide
  have h2 : ((⟨"b", 0, some 1⟩ : Snapshot), true) ∈ (deletion_main twinSnapshotEnv).verdicts := by
    decide
  exact c10_single_now_verdicts twinSnapshotEnv ⟨"a", 0, some 1⟩ ⟨"b", 0, some 1⟩
    true true h1 h2 rfl rfl

end Runbooks
